import Mathlib

/-!
Shallow embedding of the `mcp-server-example` MCP server (Rust) and proofs
about its dispatch/mapping logic.

Source files embedded:
* `src/tmdb_client.rs` — the TMDB API client: `actor_id`, `actor_info`,
  `movies_by_actor`, `resolve_image_url`, `image_url_to_base64`,
  `image_as_base64`, the `MovieDetail` / `PersonDetails` records and their
  `Display` implementations.
* `src/tools/get_actor_info.rs`, `src/tools/get_movies_by_actor.rs` — the two
  tool implementations (`invoke`).
* `src/mcp_handler.rs` — `handle_call_tool_request` (decode then dispatch).

Network I/O is modelled by passing each outbound call's response in
explicitly (an `Except String _` value standing for
`Result<_, reqwest::Error>` with the error stringified); JSON values are
modelled by the inductive `Json`; Rust panics (`unwrap` on `None` / on `Err`)
are modelled by a dedicated `panic` outcome constructor. Rust strings are
modelled as Lean `String`s; byte length and character length coincide on the
ASCII data these claims concern.
-/

/-- Model of a `serde_json::Value`. Numbers are modelled as integers
(`as_i64` succeeds exactly on the `num` constructor; a non-integer JSON
number, on which serde's `as_i64` fails, can be represented by any
non-`num` constructor for the purposes of these claims). -/
inductive Json where
  | null : Json
  | bool (b : Bool) : Json
  | num (n : Int) : Json
  | str (s : String) : Json
  | arr (elems : List Json) : Json
  | obj (fields : List (String × Json)) : Json

/-- Model of `serde_json::Value::get(key)` on an object: the value of the
first field with the given key (object keys are unique in serde maps). -/
def Json.get (j : Json) (key : String) : Option Json :=
  match j with
  | .obj fields => (fields.find? (fun kv => kv.1 == key)).map (fun kv => kv.2)
  | _ => none

/-- Model of `serde_json::Value::as_i64`. -/
def Json.as_i64 : Json → Option Int
  | .num n => some n
  | _ => none

/-- Model of `serde_json::Value::as_array`. -/
def Json.as_array : Json → Option (List Json)
  | .arr elems => some elems
  | _ => none

/-- `MovieDetail` from `src/tmdb_client.rs` (all fields; `f64` fields are
modelled as `Float`, unused by any claim). -/
structure MovieDetail where
  adult : Bool
  backdrop_path : Option String
  genre_ids : List Nat
  id : Int
  original_language : String
  original_title : String
  overview : String
  popularity : Float
  poster_path : Option String
  release_date : String
  title : String
  video : Bool
  vote_average : Float
  vote_count : Nat

/-- The `Display` implementation for `MovieDetail`
(`src/tmdb_client.rs:193-209`): `"{title} {suffix}"` where the suffix is
`(<first 4 chars of release_date>)` when `release_date.len() > 4` and the
empty string otherwise (Rust's byte slice `release_date[0..4]` is the first
four characters on ASCII data). -/
def MovieDetail.display (m : MovieDetail) : String :=
  let release_year : Option String :=
    if 4 < m.release_date.length then
      some (String.mk (m.release_date.data.take 4))
    else
      none
  m.title ++ " " ++
    (match release_year with
     | some year => "(" ++ year ++ ")"
     | none => "")

/-- `PersonDetails` from `src/tmdb_client.rs` (all fields). -/
structure PersonDetails where
  adult : Bool
  also_known_as : List String
  biography : String
  birthday : Option String
  deathday : Option String
  gender : Nat
  homepage : Option String
  id : Nat
  imdb_id : Option String
  known_for_department : String
  name : String
  place_of_birth : Option String
  popularity : Float
  profile_path : Option String

/-- `TmdbClient::actor_id` (`src/tmdb_client.rs:75-95`), applied to the
parsed search-response JSON: extracts `results`, requires it to be an array,
and `find_map`s the first entry whose `id` is an integer. -/
def TmdbClient.actor_id_of (json_value : Json) : Option Int :=
  ((json_value.get "results").bind Json.as_array).bind
    (fun arr => arr.findSome? (fun item => (item.get "id").bind Json.as_i64))

/-- `TmdbClient::resolve_image_url` (`src/tmdb_client.rs:131-134`):
fixed base URL plus fixed size segment plus the relative path. -/
def TmdbClient.resolve_image_url (image_path : String) : String :=
  "https://image.tmdb.org/t/p/" ++ "w92" ++ image_path

/-- One downloaded HTTP response: status code and raw body bytes. -/
structure HttpResponse where
  status : Nat
  body : List Nat

/-- `reqwest::Response::error_for_status`: fails exactly when the status is a
client error (400–499) or a server error (500–599). -/
def errorForStatus (r : HttpResponse) : Except String HttpResponse :=
  if 400 ≤ r.status ∧ r.status ≤ 599 then
    .error ("HTTP status error: " ++ toString r.status)
  else
    .ok r

/-- The 64 characters of the standard base64 alphabet. -/
def base64Chars : List Char :=
  ['A','B','C','D','E','F','G','H','I','J','K','L','M','N','O','P','Q','R',
   'S','T','U','V','W','X','Y','Z','a','b','c','d','e','f','g','h','i','j',
   'k','l','m','n','o','p','q','r','s','t','u','v','w','x','y','z','0','1',
   '2','3','4','5','6','7','8','9','+','/']

/-- Base64 digit for a 6-bit value. -/
def base64Digit (n : Nat) : Char :=
  base64Chars.getD n 'A'

/-- Standard base64 (`base64::engine::general_purpose::STANDARD`) encoding of
a byte sequence, with `=` padding. -/
def base64Encode : List Nat → String
  | [] => ""
  | [a] =>
      String.mk [base64Digit (a / 4), base64Digit (a % 4 * 16)] ++ "=="
  | [a, b] =>
      String.mk [base64Digit (a / 4), base64Digit (a % 4 * 16 + b / 16),
                 base64Digit (b % 16 * 4)] ++ "="
  | a :: b :: c :: rest =>
      String.mk [base64Digit (a / 4), base64Digit (a % 4 * 16 + b / 16),
                 base64Digit (b % 16 * 4 + c / 64), base64Digit (c % 64)] ++
        base64Encode rest

/-- `TmdbClient::image_url_to_base64` (`src/tmdb_client.rs:144-157`), applied
to the response the GET produced: `error_for_status`, then base64-encode the
raw body bytes. No content-type field is ever consulted. -/
def TmdbClient.image_url_to_base64 (response : HttpResponse) :
    Except String String :=
  match errorForStatus response with
  | .error e => .error e
  | .ok r => .ok (base64Encode r.body)

/-- `TmdbClient::image_as_base64` (`src/tmdb_client.rs:167-170`): resolves
the URL (pure string composition) and delegates to `image_url_to_base64`;
`response` is the HTTP response the GET against the resolved URL produced. -/
def TmdbClient.image_as_base64 (_image_path : String)
    (response : HttpResponse) : Except String String :=
  TmdbClient.image_url_to_base64 response

/-- Model of `rust_mcp_sdk::schema::CallToolError`: `fromMessage` mirrors
`CallToolError::from_message`; `invalidRequest` mirrors `CallToolError::new`
applied to a failed `TmdbTools::try_from` conversion. `toString` yields the
carried message either way. -/
inductive CallToolError where
  | fromMessage (message : String)
  | invalidRequest (message : String)

/-- The stringification of a `CallToolError` (its `Display`). -/
def CallToolError.message : CallToolError → String
  | .fromMessage m => m
  | .invalidRequest m => m

/-- Model of `rust_mcp_sdk::schema::ContentBlock`: a text block or a
base64-image block tagged with a MIME type. -/
inductive ContentBlock where
  | text (text : String)
  | image (data : String) (mimeType : String)

/-- Model of `rust_mcp_sdk::schema::CallToolResult`. -/
structure CallToolResult where
  content : List ContentBlock
  isError : Option Bool
  meta : Option (List (String × Json))
  structuredContent : Option Json

/-- `CallToolResult::with_error`: a single text block carrying the error's
message, with the error flag set. -/
def CallToolResult.with_error (e : CallToolError) : CallToolResult :=
  { content := [ContentBlock.text e.message]
    isError := some true
    meta := none
    structuredContent := none }

/-- `CallToolResult::text_content`: one text block per string, no error
flag. -/
def CallToolResult.text_content (texts : List String) : CallToolResult :=
  { content := texts.map ContentBlock.text
    isError := none
    meta := none
    structuredContent := none }

/-- Outcome of a tool invocation: `ok`/`err` mirror the Rust
`Result<CallToolResult, CallToolError>`; `panic` marks a Rust panic
(`unwrap` on a `None` or on an `Err`), which crashes the process — the
message payload is incidental. -/
inductive InvokeOutcome where
  | ok (result : CallToolResult)
  | err (e : CallToolError)
  | panic (msg : String)

/-- The `GetActorInfo` tool's request record (`src/tools/get_actor_info.rs`). -/
structure GetActorInfo where
  actor_name : String

/-- The fixed text template of `GetActorInfo::invoke`
(`src/tools/get_actor_info.rs:49-60`): id, name, birthday or blank, place of
birth or blank, biography. -/
def GetActorInfo.info_text (d : PersonDetails) : String :=
  "ID: " ++ toString d.id ++
  "\nName: " ++ d.name ++
  "\nDate of Birth: " ++ d.birthday.getD "" ++
  "\nPlace of Birth: " ++ d.place_of_birth.getD "" ++
  "\nBiography: " ++ d.biography

/-- `GetActorInfo::invoke` (`src/tools/get_actor_info.rs:29-82`).
`actorInfoResp` is the result of `tmdb_client.actor_info(actor_name)`;
`imageResp` is the result of
`tmdb_client.image_as_base64(profile_path)` (consulted only when the code
reaches that call). A transport failure in `actor_info` is converted via
`map_err(from_message)?`; a missing `profile_path` hits
`Option::unwrap` and a failed image fetch hits `Result::unwrap`, both
panics. -/
def GetActorInfo.invoke (self : GetActorInfo)
    (actorInfoResp : Except String (Option PersonDetails))
    (imageResp : Except String String) : InvokeOutcome :=
  match actorInfoResp with
  | .error e => .err (.fromMessage e)
  | .ok none =>
      .ok (CallToolResult.with_error
        (.fromMessage
          ("No actors matching the name \"" ++ self.actor_name ++
           "\" were found")))
  | .ok (some actor_details) =>
      let info := GetActorInfo.info_text actor_details
      match actor_details.profile_path with
      | none => .panic "called Option::unwrap on a None value"
      | some _path =>
          match imageResp with
          | .error e => .panic e
          | .ok image_data =>
              .ok { content := [ContentBlock.text info,
                                ContentBlock.image image_data "image/jpeg"]
                    isError := none
                    meta := some [("actor_id", Json.num actor_details.id)]
                    structuredContent := none }

/-- The `GetMoviesByActor` tool's request record
(`src/tools/get_movies_by_actor.rs`). -/
structure GetMoviesByActor where
  actor_id : Int

/-- Rust `Vec<String>::join("\n")`. -/
def joinNewline : List String → String
  | [] => ""
  | [s] => s
  | s :: rest => s ++ "\n" ++ joinNewline rest

/-- `GetMoviesByActor::invoke` (`src/tools/get_movies_by_actor.rs:29-55`).
`moviesResp` is the result of `tmdb_client.movies_by_actor(actor_id)`. An
empty movie list yields the fixed domain error; otherwise the movies are
enumerated (0-based), formatted `"{index}. {movie}"`, and newline-joined
into one text block. -/
def GetMoviesByActor.invoke (_self : GetMoviesByActor)
    (moviesResp : Except String (List MovieDetail)) : InvokeOutcome :=
  match moviesResp with
  | .error e => .err (.fromMessage e)
  | .ok movies =>
      if movies.isEmpty then
        .ok (CallToolResult.with_error (.fromMessage "No movies were found!"))
      else
        let result := joinNewline
          (movies.enum.map (fun p => toString p.1 ++ ". " ++ p.2.display))
        .ok (CallToolResult.text_content [result])

/-- The decoded tool-request union produced by `tool_box!(TmdbTools, ...)`
(`src/tools.rs:9`). -/
inductive TmdbTools where
  | getActorInfoReq (t : GetActorInfo)
  | getMoviesByActorReq (t : GetMoviesByActor)

/-- A failed decode, reported to the caller as an invalid-request error. -/
inductive DecodeError where
  | invalidRequest (msg : String)

/-- Inbound `CallToolRequestParams`: tool name plus argument bag. -/
structure CallToolRequestParams where
  name : String
  arguments : List (String × Json)

/-- First value bound to `key` in an argument bag. -/
def lookupArg (args : List (String × Json)) (key : String) : Option Json :=
  (args.find? (fun kv => kv.1 == key)).map (fun kv => kv.2)

/-- Modelled from the spec: `TmdbTools::try_from` — the decode half of the
Tool Request/Result Mapper, generated by the `tool_box!`/`mcp_tool` macros,
whose expansion is not part of the source tree. Per the spec's decode
contract it structurally validates the argument bag against the named tool's
required fields — a non-empty string for `actor_name`, an integer for
`actor_id` — and fails with an invalid-request error when the tool name is
unrecognized or the bag does not match. -/
def TmdbTools.try_from (params : CallToolRequestParams) :
    Except DecodeError TmdbTools :=
  if params.name = "get_actor_info" then
    match lookupArg params.arguments "actor_name" with
    | some (Json.str s) =>
        if s = "" then
          .error (.invalidRequest "actor_name must be a non-empty string")
        else
          .ok (.getActorInfoReq ⟨s⟩)
    | _ => .error (.invalidRequest "actor_name must be a non-empty string")
  else if params.name = "get_movies_by_actor" then
    match lookupArg params.arguments "actor_id" with
    | some (Json.num n) => .ok (.getMoviesByActorReq ⟨n⟩)
    | _ => .error (.invalidRequest "actor_id must be an integer")
  else
    .error (.invalidRequest ("Unknown tool: " ++ params.name))

/-- The responses the external TMDB service would give to the (at most one
per kind) outbound calls a single tool invocation makes. -/
structure ToolEnv where
  actorInfoResp : Except String (Option PersonDetails)
  imageResp : Except String String
  moviesResp : Except String (List MovieDetail)

/-- `McpHandler::handle_call_tool_request` (`src/mcp_handler.rs:35-52`):
decode the params into a `TmdbTools` value — a failed conversion is returned
as an error before any tool implementation runs (so the result cannot depend
on `env`) — then dispatch to the matching tool's `invoke`. -/
def McpHandler.handle_call_tool_request (params : CallToolRequestParams)
    (env : ToolEnv) : InvokeOutcome :=
  match TmdbTools.try_from params with
  | .error (.invalidRequest m) => .err (.invalidRequest m)
  | .ok (.getActorInfoReq t) => t.invoke env.actorInfoResp env.imageResp
  | .ok (.getMoviesByActorReq t) => t.invoke env.moviesResp

/-! ### Concrete stub values used by counterexamples and witnesses -/

/-- A concrete `MovieDetail` with the given release date. -/
def stubMovie (rd : String) : MovieDetail :=
  { adult := false
    backdrop_path := none
    genre_ids := []
    id := 578
    original_language := "en"
    original_title := "Jaws"
    overview := ""
    popularity := 0.0
    poster_path := none
    release_date := rd
    title := "Jaws"
    video := false
    vote_average := 0.0
    vote_count := 0 }

/-- A concrete `PersonDetails` with a profile-image path present. -/
def stubPerson : PersonDetails :=
  { adult := false
    also_known_as := []
    biography := "An actor."
    birthday := some "1946-07-06"
    deathday := none
    gender := 2
    homepage := none
    id := 16483
    imdb_id := none
    known_for_department := "Acting"
    name := "Sylvester Stallone"
    place_of_birth := some "New York City, New York, USA"
    popularity := 1.0
    profile_path := some "/gnmwOa46C2TP35N7ARSzboTdx2u.jpg" }

/-- A concrete `ToolEnv`. -/
def stubEnv : ToolEnv :=
  { actorInfoResp := .ok none
    imageResp := .ok ""
    moviesResp := .ok [] }

/-! ### C1 — release-year formatting in `Display for MovieDetail` -/

/-- C1 counterexample: the claim says a release-date string of length exactly
4 still yields the parenthesized year, but the code renders the suffix only
when `release_date.len() > 4`: for release date `"1993"` the rendered line is
`"Jaws "` with no parenthesis at all. -/
theorem c1_release_year_counterexample :
    (stubMovie "1993").display = "Jaws " ∧
    ((stubMovie "1993").display.data.contains '(') = false := by
  constructor
  · rfl
  · decide

/-- C1 amended: the formatted movie line carries the parenthesized
first-four-characters year suffix exactly when the release-date string is
strictly longer than 4 characters; for length at most 4 (including exactly
4) there is no parenthesized suffix, only the title and a trailing space. -/
theorem c1_release_year_amended (m : MovieDetail) :
    (4 < m.release_date.length →
      m.display =
        m.title ++ " " ++
          ("(" ++ String.mk (m.release_date.data.take 4) ++ ")")) ∧
    (m.release_date.length ≤ 4 →
      m.display = m.title ++ " ") := by
  constructor
  · intro h
    simp [MovieDetail.display, h]
  · intro h
    simp [MovieDetail.display, Nat.not_lt.mpr h]

/-- C1 witness: the amended theorem applied to the movie with release date
`"1993-11-19"`. -/
theorem c1_release_year_amended_witness :
    4 < (stubMovie "1993-11-19").release_date.length ∧
    (stubMovie "1993-11-19").display =
      (stubMovie "1993-11-19").title ++ " " ++
        ("(" ++
          String.mk ((stubMovie "1993-11-19").release_date.data.take 4) ++
          ")") :=
  ⟨by decide, (c1_release_year_amended (stubMovie "1993-11-19")).1 (by decide)⟩

/-! ### C2 — failure conversion inside the tool implementations -/

/-- C2 counterexample: the claim says a transport failure while fetching the
profile image yields a caller-visible error result, but
`GetActorInfo::invoke` calls `.unwrap()` on the `image_as_base64` result
(`src/tools/get_actor_info.rs:62-65`), so a failed image fetch panics. -/
theorem c2_unwrap_counterexample :
    GetActorInfo.invoke ⟨"Sylvester Stallone"⟩ (.ok (some stubPerson))
        (.error "connection reset by peer") =
      .panic "connection reset by peer" := rfl

/-- C2 amended: every failure reaching a tool implementation is converted to
a caller-visible error result rather than crashing the process, with TWO
exceptions, both in `GetActorInfo`: the `unwrap` on a missing profile-image
path and the `unwrap` on the image-fetch result. Precisely: a failed
`actor_info` / `movies_by_actor` fetch is converted to an error result;
`GetMoviesByActor` never panics; a lookup that finds no actor never panics;
and after a successful actor lookup the invocation panics exactly when the
profile path is absent or the image fetch failed. -/
theorem c2_failure_conversion_amended :
    (∀ (self : GetActorInfo) (e : String) (img : Except String String),
       self.invoke (.error e) img = .err (.fromMessage e)) ∧
    (∀ (self : GetMoviesByActor) (e : String),
       self.invoke (.error e) = .err (.fromMessage e)) ∧
    (∀ (self : GetMoviesByActor) (mr : Except String (List MovieDetail))
       (m : String), self.invoke mr ≠ .panic m) ∧
    (∀ (self : GetActorInfo) (img : Except String String) (m : String),
       self.invoke (.ok none) img ≠ .panic m) ∧
    (∀ (self : GetActorInfo) (d : PersonDetails)
       (img : Except String String),
       (∃ m, self.invoke (.ok (some d)) img = .panic m) ↔
         (d.profile_path = none ∨ ∃ e, img = .error e)) := by
  refine ⟨fun self e img => rfl, fun self e => rfl, ?_, ?_, ?_⟩
  · intro self mr m h
    match mr with
    | .error e => exact InvokeOutcome.noConfusion h
    | .ok movies =>
        unfold GetMoviesByActor.invoke at h
        by_cases hm : movies.isEmpty <;>
          simp only [hm, if_true, if_false, Bool.false_eq_true] at h <;>
          exact InvokeOutcome.noConfusion h
  · intro self img m h
    exact InvokeOutcome.noConfusion h
  · intro self d img
    constructor
    · rintro ⟨m, h⟩
      rcases hp : d.profile_path with _ | p
      · exact Or.inl rfl
      · rcases himg : img with e | v
        · exact Or.inr ⟨e, rfl⟩
        · subst himg
          simp [GetActorInfo.invoke, hp] at h
    · rintro (hp | ⟨e, he⟩)
      · exact ⟨"called Option::unwrap on a None value", by
          simp [GetActorInfo.invoke, hp]⟩
      · subst he
        rcases hp : d.profile_path with _ | p
        · exact ⟨"called Option::unwrap on a None value", by
            simp [GetActorInfo.invoke, hp]⟩
        · exact ⟨e, by simp [GetActorInfo.invoke, hp]⟩

/-- C2 witness: the amended theorem applied at concrete inputs — a failed
actor lookup is converted to an error result, and a failed image fetch after
a successful lookup panics. -/
theorem c2_failure_conversion_amended_witness :
    GetActorInfo.invoke ⟨"X"⟩ (.error "boom") (.ok "") =
      .err (.fromMessage "boom") ∧
    (∃ m, GetActorInfo.invoke ⟨"X"⟩ (.ok (some stubPerson))
        (.error "io error") = .panic m) :=
  ⟨c2_failure_conversion_amended.1 ⟨"X"⟩ "boom" (.ok ""),
   (c2_failure_conversion_amended.2.2.2.2 ⟨"X"⟩ stubPerson
       (.error "io error")).mpr (Or.inr ⟨"io error", rfl⟩)⟩

/-! ### C4 — image fetch status handling -/

/-- C4 counterexample: the claim says any non-2xx status — including 3xx —
is treated as failure, but `error_for_status` fails only on 4xx/5xx: a 301
response is accepted and its body base64-encoded. -/
theorem c4_status_counterexample :
    TmdbClient.image_url_to_base64 ⟨301, [77, 97, 110]⟩ =
      .ok "TWFu" := by
  rfl

/-- C4 amended: the image fetch fails exactly when the HTTP status is a
client or server error (400–599); any other status (2xx, but also 1xx and
3xx) is accepted and the raw response bytes are base64-encoded, with no
content-type validation (no content-type data is consulted at all);
`image_as_base64` is the same operation after pure URL resolution. -/
theorem c4_image_fetch_amended (r : HttpResponse) :
    (400 ≤ r.status ∧ r.status ≤ 599 →
      TmdbClient.image_url_to_base64 r =
        .error ("HTTP status error: " ++ toString r.status)) ∧
    (r.status < 400 ∨ 599 < r.status →
      TmdbClient.image_url_to_base64 r = .ok (base64Encode r.body)) ∧
    (∀ p : String, TmdbClient.image_as_base64 p r =
      TmdbClient.image_url_to_base64 r) := by
  refine ⟨fun h => ?_, fun h => ?_, fun p => rfl⟩
  · simp only [TmdbClient.image_url_to_base64, errorForStatus, if_pos h]
  · have hn : ¬(400 ≤ r.status ∧ r.status ≤ 599) := by omega
    simp only [TmdbClient.image_url_to_base64, errorForStatus, if_neg hn]

/-- C4 witness: the amended theorem applied to a 404 response and to a 200
response. -/
theorem c4_image_fetch_amended_witness :
    (400 ≤ 404 ∧ 404 ≤ 599) ∧
    TmdbClient.image_url_to_base64 ⟨404, []⟩ =
      .error ("HTTP status error: " ++ toString 404) ∧
    TmdbClient.image_url_to_base64 ⟨200, [77, 97, 110]⟩ =
      .ok (base64Encode [77, 97, 110]) :=
  ⟨by decide,
   (c4_image_fetch_amended ⟨404, []⟩).1 (by decide),
   (c4_image_fetch_amended ⟨200, [77, 97, 110]⟩).2.1 (by decide)⟩

/-! ### C6 — the empty-movie-list domain error -/

/-- C6: with zero discovered movies, `GetMoviesByActor` returns a domain
error result (an `ok` protocol result carrying the error flag, not a
transport error) whose single text block is exactly `No movies were
found!`; and with a non-empty list (the only other zero-failure case) it
returns a non-error text result. -/
theorem c6_no_movies_domain_error (self : GetMoviesByActor) :
    self.invoke (.ok []) =
      .ok { content := [ContentBlock.text "No movies were found!"]
            isError := some true
            meta := none
            structuredContent := none } ∧
    (∀ movies : List MovieDetail, movies ≠ [] →
      ∃ out : String,
        self.invoke (.ok movies) =
          .ok { content := [ContentBlock.text out]
                isError := none
                meta := none
                structuredContent := none }) := by
  constructor
  · rfl
  · intro movies h
    match movies with
    | [] => exact absurd rfl h
    | m :: rest => exact ⟨_, rfl⟩

/-- C6 witness: the theorem applied at a concrete actor id, with a singleton
movie list for the non-empty case. -/
theorem c6_no_movies_domain_error_witness :
    GetMoviesByActor.invoke ⟨1234⟩ (.ok []) =
      .ok { content := [ContentBlock.text "No movies were found!"]
            isError := some true
            meta := none
            structuredContent := none } ∧
    (∃ out : String,
      GetMoviesByActor.invoke ⟨1234⟩ (.ok [stubMovie "1975-06-20"]) =
        .ok { content := [ContentBlock.text out]
              isError := none
              meta := none
              structuredContent := none }) :=
  ⟨(c6_no_movies_domain_error ⟨1234⟩).1,
   (c6_no_movies_domain_error ⟨1234⟩).2 [stubMovie "1975-06-20"]
     (List.cons_ne_nil _ _)⟩

/-! ### C7 — the no-actor-found domain error -/

/-- C7: when the actor search yields no identifier, `GetActorInfo` returns a
domain error result whose message is exactly
`No actors matching the name "<actor_name>" were found`, and that message
contains the queried name. -/
theorem c7_no_actor_domain_error (self : GetActorInfo)
    (imageResp : Except String String) :
    self.invoke (.ok none) imageResp =
      .ok (CallToolResult.with_error (.fromMessage
        ("No actors matching the name \"" ++ self.actor_name ++
         "\" were found"))) ∧
    (∃ pre post : String,
      "No actors matching the name \"" ++ self.actor_name ++
        "\" were found" = pre ++ self.actor_name ++ post) :=
  ⟨rfl, "No actors matching the name \"", "\" were found", rfl⟩

/-- C7 witness: the theorem applied at a concrete actor name. -/
theorem c7_no_actor_domain_error_witness :
    GetActorInfo.invoke ⟨"Greta Garbo"⟩ (.ok none) (.ok "") =
      .ok (CallToolResult.with_error (.fromMessage
        ("No actors matching the name \"" ++ "Greta Garbo" ++
         "\" were found"))) ∧
    (∃ pre post : String,
      "No actors matching the name \"" ++ "Greta Garbo" ++
        "\" were found" = pre ++ "Greta Garbo" ++ post) :=
  c7_no_actor_domain_error ⟨"Greta Garbo"⟩ (.ok "")

/-! ### C8 — first-match scan in `TmdbClient::actor_id` -/

/-- The parsed search-response JSON: an object whose `results` field is the
given array. -/
def mkSearchResponse (entries : List Json) : Json :=
  Json.obj [("results", Json.arr entries)]

/-- C8: `actor_id` scans the `results` list in upstream order and returns
the first integer `id` found, independently of everything after the first
match; it returns `none` when every entry lacks an integer `id`, when the
list is empty, and when `results` is absent. -/
theorem c8_actor_id_first_match :
    (∀ (l₁ : List Json) (x : Json) (l₂ : List Json) (n : Int),
      (∀ y ∈ l₁, (Json.get y "id").bind Json.as_i64 = none) →
      (Json.get x "id").bind Json.as_i64 = some n →
      TmdbClient.actor_id_of (mkSearchResponse (l₁ ++ x :: l₂)) = some n) ∧
    (∀ entries : List Json,
      (∀ y ∈ entries, (Json.get y "id").bind Json.as_i64 = none) →
      TmdbClient.actor_id_of (mkSearchResponse entries) = none) ∧
    TmdbClient.actor_id_of (mkSearchResponse []) = none ∧
    (∀ fields : List (String × Json),
      fields.find? (fun kv => kv.1 == "results") = none →
      TmdbClient.actor_id_of (Json.obj fields) = none) := by
  refine ⟨?_, ?_, rfl, ?_⟩
  · intro l₁ x l₂ n h₁ hx
    simp only [TmdbClient.actor_id_of, mkSearchResponse, Json.get,
      List.find?_cons_of_pos, Option.map_some, Json.as_array,
      Option.bind_some]
    exact List.findSome?_eq_some_iff.mpr ⟨l₁, x, l₂, rfl, hx, h₁⟩
  · intro entries h
    simp only [TmdbClient.actor_id_of, mkSearchResponse, Json.get,
      List.find?_cons_of_pos, Option.map_some, Json.as_array,
      Option.bind_some]
    exact List.findSome?_eq_none_iff.mpr h
  · intro fields h
    simp [TmdbClient.actor_id_of, Json.get, h]

/-- C8 witness: the first-match conjunct applied to a concrete response in
which the first entry has no integer id, the second has id 42, and a later
entry with id 99 is ignored. -/
theorem c8_actor_id_first_match_witness :
    TmdbClient.actor_id_of
      (mkSearchResponse
        [Json.obj [("name", Json.str "A")],
         Json.obj [("id", Json.num 42)],
         Json.obj [("id", Json.num 99)]]) = some 42 :=
  c8_actor_id_first_match.1 [Json.obj [("name", Json.str "A")]]
    (Json.obj [("id", Json.num 42)]) [Json.obj [("id", Json.num 99)]] 42
    (by
      intro y hy
      simp only [List.mem_singleton] at hy
      subst hy
      rfl)
    rfl

/-! ### C9 — non-empty content unless error -/

/-- C9: for every `CallToolResult` either tool returns (the `ok` outcomes),
the content sequence is empty only when the result carries the error flag —
in fact every returned result has non-empty content. -/
theorem c9_content_empty_only_on_error :
    (∀ (self : GetActorInfo) (a : Except String (Option PersonDetails))
       (i : Except String String) (r : CallToolResult),
       self.invoke a i = .ok r → r.content ≠ [] ∨ r.isError = some true) ∧
    (∀ (self : GetMoviesByActor) (mr : Except String (List MovieDetail))
       (r : CallToolResult),
       self.invoke mr = .ok r → r.content ≠ [] ∨ r.isError = some true) := by
  constructor
  · intro self a i r h
    left
    rcases a with e | od
    · exact InvokeOutcome.noConfusion h
    · rcases od with _ | d
      · cases h
        simp [GetActorInfo.invoke, CallToolResult.with_error]
      · rcases hp : d.profile_path with _ | p
        · simp [GetActorInfo.invoke, hp] at h
        · rcases i with e | v
          · simp [GetActorInfo.invoke, hp] at h
          · simp [GetActorInfo.invoke, hp] at h
            subst h
            simp
  · intro self mr r h
    left
    match mr with
    | .error e => exact InvokeOutcome.noConfusion h
    | .ok movies =>
        unfold GetMoviesByActor.invoke at h
        by_cases hm : movies.isEmpty
        · simp only [hm, if_true] at h
          cases h
          simp [CallToolResult.with_error]
        · simp only [hm, if_false, Bool.false_eq_true] at h
          cases h
          simp [CallToolResult.text_content]

/-- C9 witness: the theorem applied at concrete successful invocations of
both tools. -/
theorem c9_content_empty_only_on_error_witness :
    ((CallToolResult.with_error (.fromMessage "No movies were found!")).content
        ≠ [] ∨
      (CallToolResult.with_error
          (.fromMessage "No movies were found!")).isError = some true) ∧
    ((CallToolResult.text_content ["0. Jaws (1975)"]).content ≠ [] ∨
      (CallToolResult.text_content ["0. Jaws (1975)"]).isError = some true) :=
  ⟨c9_content_empty_only_on_error.2 ⟨1234⟩ (.ok []) _ rfl,
   c9_content_empty_only_on_error.2 ⟨1234⟩ (.ok [stubMovie "1975-06-20"]) _
     rfl⟩

/-! ### C10 — shape of a fully successful `GetActorInfo` result -/

/-- C10: a successful `GetActorInfo` invocation (actor found, profile path
present, image fetched) returns a result whose metadata map binds
`actor_id` to the fetched actor's `id` and whose content is exactly one
text block followed by one image block tagged `image/jpeg`. -/
theorem c10_success_shape (self : GetActorInfo) (d : PersonDetails)
    (path : String) (img : String) (hp : d.profile_path = some path) :
    self.invoke (.ok (some d)) (.ok img) =
      .ok { content := [ContentBlock.text (GetActorInfo.info_text d),
                        ContentBlock.image img "image/jpeg"]
            isError := none
            meta := some [("actor_id", Json.num d.id)]
            structuredContent := none } := by
  simp [GetActorInfo.invoke, hp]

/-- C10 witness: the theorem applied to a concrete actor with a profile
path. -/
theorem c10_success_shape_witness :
    stubPerson.profile_path = some "/gnmwOa46C2TP35N7ARSzboTdx2u.jpg" ∧
    GetActorInfo.invoke ⟨"Sylvester Stallone"⟩ (.ok (some stubPerson))
        (.ok "QUJD") =
      .ok { content := [ContentBlock.text (GetActorInfo.info_text stubPerson),
                        ContentBlock.image "QUJD" "image/jpeg"]
            isError := none
            meta := some [("actor_id", Json.num stubPerson.id)]
            structuredContent := none } :=
  ⟨rfl,
   c10_success_shape ⟨"Sylvester Stallone"⟩ stubPerson
     "/gnmwOa46C2TP35N7ARSzboTdx2u.jpg" "QUJD" rfl⟩

/-! ### C3 — decode validation before dispatch -/

/-- C3: the decode step rejects an unrecognized tool name, an empty
`actor_name`, and a missing or non-integer `actor_id`, each with an
invalid-request error; and whenever decode fails, the handler returns that
error for EVERY environment of outbound-call responses — so no tool
implementation ran and no external API response was consulted. -/
theorem c3_decode_validates_before_dispatch :
    (∀ p : CallToolRequestParams,
      p.name ≠ "get_actor_info" → p.name ≠ "get_movies_by_actor" →
      TmdbTools.try_from p =
        .error (.invalidRequest ("Unknown tool: " ++ p.name))) ∧
    (∀ args : List (String × Json),
      lookupArg args "actor_name" = some (Json.str "") →
      TmdbTools.try_from ⟨"get_actor_info", args⟩ =
        .error (.invalidRequest "actor_name must be a non-empty string")) ∧
    (∀ args : List (String × Json),
      lookupArg args "actor_id" = none →
      TmdbTools.try_from ⟨"get_movies_by_actor", args⟩ =
        .error (.invalidRequest "actor_id must be an integer")) ∧
    (∀ (args : List (String × Json)) (s : String),
      lookupArg args "actor_id" = some (Json.str s) →
      TmdbTools.try_from ⟨"get_movies_by_actor", args⟩ =
        .error (.invalidRequest "actor_id must be an integer")) ∧
    (∀ (p : CallToolRequestParams) (m : String) (env : ToolEnv),
      TmdbTools.try_from p = .error (.invalidRequest m) →
      McpHandler.handle_call_tool_request p env = .err (.invalidRequest m)) := by
  refine ⟨?_, ?_, ?_, ?_, ?_⟩
  · intro p h1 h2
    simp [TmdbTools.try_from, h1, h2]
  · intro args h
    simp [TmdbTools.try_from, h]
  · intro args h
    simp [TmdbTools.try_from, h]
  · intro args s h
    simp [TmdbTools.try_from, h]
  · intro p m env h
    simp [McpHandler.handle_call_tool_request, h]

/-- C3 witness: a `get_actor_info` invocation whose `actor_name` is the
empty string is rejected at decode, for a concrete environment. -/
theorem c3_decode_validates_before_dispatch_witness :
    McpHandler.handle_call_tool_request
        ⟨"get_actor_info", [("actor_name", Json.str "")]⟩ stubEnv =
      .err (.invalidRequest "actor_name must be a non-empty string") :=
  c3_decode_validates_before_dispatch.2.2.2.2
    ⟨"get_actor_info", [("actor_name", Json.str "")]⟩
    "actor_name must be a non-empty string" stubEnv
    (c3_decode_validates_before_dispatch.2.1
      [("actor_name", Json.str "")] rfl)

/-! ### C5 — numbered, newline-joined movie lines -/

/-- Characters of a string split at newline characters (the list of lines;
an empty input yields one empty line). -/
def splitLinesChars : List Char → List (List Char)
  | [] => [[]]
  | c :: rest =>
    match splitLinesChars rest with
    | [] => [[c]]
    | l :: ls => if c = '\n' then [] :: l :: ls else (c :: l) :: ls

/-- The newline-separated lines of a string. -/
def linesOf (s : String) : List String :=
  (splitLinesChars s.data).map String.mk

theorem splitLinesChars_ne_nil (l : List Char) : splitLinesChars l ≠ [] := by
  induction l with
  | nil => simp [splitLinesChars]
  | cons c rest ih =>
    cases hs : splitLinesChars rest with
    | nil => exact absurd hs ih
    | cons a as =>
      by_cases hc : c = '\n' <;> simp [splitLinesChars, hs, hc]

theorem splitLinesChars_no_newline (a : List Char)
    (ha : ∀ c ∈ a, c ≠ '\n') : splitLinesChars a = [a] := by
  induction a with
  | nil => rfl
  | cons c rest ih =>
    have hc : c ≠ '\n' := ha c (List.mem_cons_self c rest)
    have ih' : splitLinesChars rest = [rest] :=
      ih (fun x hx => ha x (List.mem_cons_of_mem c hx))
    simp [splitLinesChars, ih', hc]

theorem splitLinesChars_append (a b : List Char)
    (ha : ∀ c ∈ a, c ≠ '\n') :
    splitLinesChars ((a ++ ['\n']) ++ b) = a :: splitLinesChars b := by
  induction a with
  | nil =>
    show splitLinesChars ('\n' :: b) = [] :: splitLinesChars b
    cases hs : splitLinesChars b with
    | nil => exact absurd hs (splitLinesChars_ne_nil b)
    | cons l ls => simp [splitLinesChars, hs]
  | cons c rest ih =>
    have hc : c ≠ '\n' := ha c (List.mem_cons_self c rest)
    have ih' := ih (fun x hx => ha x (List.mem_cons_of_mem c hx))
    simp only [List.append_assoc, List.singleton_append, List.cons_append,
      List.nil_append] at ih' ⊢
    simp [splitLinesChars, ih', hc]

/-- Splitting a newline-join of newline-free segments recovers the
segments. -/
theorem linesOf_joinNewline (segs : List String) (h : segs ≠ [])
    (hn : ∀ s ∈ segs, ∀ c ∈ s.data, c ≠ '\n') :
    linesOf (joinNewline segs) = segs := by
  induction segs with
  | nil => exact absurd rfl h
  | cons s rest ih =>
    cases rest with
    | nil =>
      show (splitLinesChars (joinNewline [s]).data).map String.mk = [s]
      have h1 : joinNewline [s] = s := rfl
      rw [h1,
        splitLinesChars_no_newline s.data (hn s (List.mem_cons_self s []))]
      rfl
    | cons t rest' =>
      have hs : ∀ c ∈ s.data, c ≠ '\n' :=
        hn s (List.mem_cons_self s (t :: rest'))
      have ih' : linesOf (joinNewline (t :: rest')) = t :: rest' :=
        ih (List.cons_ne_nil t rest')
          (fun x hx => hn x (List.mem_cons_of_mem s hx))
      have ih2 : (splitLinesChars (joinNewline (t :: rest')).data).map
          String.mk = t :: rest' := ih'
      show (splitLinesChars (joinNewline (s :: t :: rest')).data).map
          String.mk = s :: t :: rest'
      have hdata : (joinNewline (s :: t :: rest')).data
          = (s.data ++ ['\n']) ++ (joinNewline (t :: rest')).data := rfl
      rw [hdata, splitLinesChars_append _ _ hs]
      simp only [List.map_cons]
      rw [ih2]

/-- Branch-level description of `MovieDetail.display`, shared by several
proofs. -/
theorem display_spec (m : MovieDetail) :
    (4 < m.release_date.length →
      m.display = m.title ++ " " ++
        ("(" ++ String.mk (m.release_date.data.take 4) ++ ")")) ∧
    (¬ 4 < m.release_date.length → m.display = m.title ++ " ") := by
  constructor
  · intro h
    simp [MovieDetail.display, h]
  · intro h
    simp [MovieDetail.display, h]

/-- The formatted movie line always extends the title. -/
theorem display_decomp (m : MovieDetail) :
    ∃ r : String, m.display = m.title ++ r := by
  by_cases h : 4 < m.release_date.length
  · refine ⟨" " ++ ("(" ++ String.mk (m.release_date.data.take 4) ++ ")"), ?_⟩
    rw [(display_spec m).1 h, String.append_assoc]
  · exact ⟨" ", (display_spec m).2 h⟩

/-- A formatted movie line contains no newline when neither the title nor
the release date does. -/
theorem display_no_newline (m : MovieDetail)
    (ht : ∀ c ∈ m.title.data, c ≠ '\n')
    (hr : ∀ c ∈ m.release_date.data, c ≠ '\n') :
    ∀ c ∈ m.display.data, c ≠ '\n' := by
  intro c hc
  by_cases h : 4 < m.release_date.length
  · have hd : m.display.data
        = (m.title.data ++ [' ']) ++
            ((['('] ++ m.release_date.data.take 4) ++ [')']) := by
      rw [(display_spec m).1 h]
      rfl
    rw [hd] at hc
    rcases List.mem_append.mp hc with h1 | h1
    · rcases List.mem_append.mp h1 with h2 | h2
      · exact ht c h2
      · simp only [List.mem_singleton] at h2
        subst h2
        decide
    · rcases List.mem_append.mp h1 with h2 | h2
      · rcases List.mem_append.mp h2 with h3 | h3
        · simp only [List.mem_singleton] at h3
          subst h3
          decide
        · exact hr c (List.take_subset 4 _ h3)
      · simp only [List.mem_singleton] at h2
        subst h2
        decide
  · have hd : m.display.data = m.title.data ++ [' '] := by
      rw [(display_spec m).2 h]
      rfl
    rw [hd] at hc
    rcases List.mem_append.mp hc with h1 | h1
    · exact ht c h1
    · simp only [List.mem_singleton] at h1
      subst h1
      decide

theorem digitChar_no_newline (n : Nat) (h : n < 10) :
    Nat.digitChar n ≠ '\n' := by
  interval_cases n <;> decide

theorem toDigitsCore_no_newline :
    ∀ (fuel n : Nat) (ds : List Char), (∀ c ∈ ds, c ≠ '\n') →
      ∀ c ∈ Nat.toDigitsCore 10 fuel n ds, c ≠ '\n' := by
  intro fuel
  induction fuel with
  | zero => intro n ds hds c hc; exact hds c hc
  | succ f ih =>
    intro n ds hds c hc
    simp only [Nat.toDigitsCore] at hc
    by_cases h : n / 10 = 0
    · rw [if_pos h] at hc
      simp only [List.mem_cons] at hc
      rcases hc with rfl | hc
      · exact digitChar_no_newline _ (Nat.mod_lt _ (by decide))
      · exact hds c hc
    · rw [if_neg h] at hc
      refine ih (n / 10) (Nat.digitChar (n % 10) :: ds) ?_ c hc
      intro x hx
      simp only [List.mem_cons] at hx
      rcases hx with rfl | hx
      · exact digitChar_no_newline _ (Nat.mod_lt _ (by decide))
      · exact hds x hx

/-- The decimal rendering of a natural number contains no newline. -/
theorem natToString_no_newline (n : Nat) :
    ∀ c ∈ (toString n).data, c ≠ '\n' := by
  intro c hc
  have hd : (toString n).data = Nat.toDigitsCore 10 (n + 1) n [] := rfl
  rw [hd] at hc
  exact toDigitsCore_no_newline (n + 1) n []
    (fun x hx => absurd hx (List.not_mem_nil x)) c hc

/-- A full numbered movie line contains no newline when neither the title
nor the release date does. -/
theorem line_no_newline (i : Nat) (m : MovieDetail)
    (ht : ∀ c ∈ m.title.data, c ≠ '\n')
    (hr : ∀ c ∈ m.release_date.data, c ≠ '\n') :
    ∀ c ∈ (toString i ++ ". " ++ m.display).data, c ≠ '\n' := by
  have hd : (toString i ++ ". " ++ m.display).data
      = ((toString i).data ++ ['.', ' ']) ++ m.display.data := rfl
  intro c hc
  rw [hd] at hc
  rcases List.mem_append.mp hc with h1 | h1
  · rcases List.mem_append.mp h1 with h2 | h2
    · exact natToString_no_newline i c h2
    · simp only [List.mem_cons, List.not_mem_nil, or_false] at h2
      rcases h2 with rfl | rfl
      · decide
      · decide
  · exact display_no_newline m ht hr c h1

/-- C5: for every non-empty movie list (whose titles and release dates are
newline-free, so that lines are well defined), the formatted output is one
text block splitting into exactly N newline-separated lines, where line i
(0-based, upstream order) is the decimal rendering of i, then `. `, then the
movie's formatted title. -/
theorem c5_numbered_lines (self : GetMoviesByActor)
    (movies : List MovieDetail) (hne : movies ≠ [])
    (hnl : ∀ m ∈ movies, (∀ c ∈ m.title.data, c ≠ '\n') ∧
      (∀ c ∈ m.release_date.data, c ≠ '\n')) :
    ∃ out : String,
      self.invoke (.ok movies) = .ok (CallToolResult.text_content [out]) ∧
      (linesOf out).length = movies.length ∧
      (∀ i, i < movies.length →
        ∃ m r, movies[i]? = some m ∧
          (linesOf out)[i]? = some (toString i ++ ". " ++ m.title ++ r)) := by
  obtain ⟨m0, rest0, rfl⟩ : ∃ m0 rest0, movies = m0 :: rest0 := by
    cases movies with
    | nil => exact absurd rfl hne
    | cons a b => exact ⟨a, b, rfl⟩
  have hlines_nl : ∀ s ∈ ((m0 :: rest0).enum).map
      (fun p => toString p.1 ++ ". " ++ p.2.display),
      ∀ c ∈ s.data, c ≠ '\n' := by
    intro s hs
    rcases List.mem_map.mp hs with ⟨p, hp, rfl⟩
    have hmem : p.2 ∈ m0 :: rest0 := by
      have h1 := List.mem_enum_iff_getElem?.mp hp
      exact List.getElem?_mem h1
    exact line_no_newline p.1 p.2 (hnl p.2 hmem).1 (hnl p.2 hmem).2
  have hA : linesOf (joinNewline (((m0 :: rest0).enum).map
      (fun p => toString p.1 ++ ". " ++ p.2.display)))
      = ((m0 :: rest0).enum).map
          (fun p => toString p.1 ++ ". " ++ p.2.display) := by
    refine linesOf_joinNewline _ ?_ hlines_nl
    apply List.ne_nil_of_length_pos
    rw [List.length_map, List.enum_length, List.length_cons]
    exact Nat.succ_pos _
  refine ⟨_, rfl, ?_, ?_⟩
  · rw [hA, List.length_map, List.enum_length]
  · intro i hi
    have hm : (m0 :: rest0)[i]? = some (m0 :: rest0)[i] :=
      List.getElem?_eq_getElem hi
    obtain ⟨r, hr⟩ := display_decomp ((m0 :: rest0)[i])
    refine ⟨(m0 :: rest0)[i], r, hm, ?_⟩
    rw [hA, List.getElem?_map, List.getElem?_enum, hm]
    simp [hr]
    rw [← String.append_assoc]

/-- C5 witness: the theorem applied to a concrete two-movie list. -/
theorem c5_numbered_lines_witness :
    [stubMovie "1975-06-20", stubMovie "1993"] ≠ [] ∧
    ∃ out : String,
      GetMoviesByActor.invoke ⟨1234⟩
          (.ok [stubMovie "1975-06-20", stubMovie "1993"]) =
        .ok (CallToolResult.text_content [out]) ∧
      (linesOf out).length =
        ([stubMovie "1975-06-20", stubMovie "1993"] :
          List MovieDetail).length ∧
      (∀ i, i < ([stubMovie "1975-06-20", stubMovie "1993"] :
          List MovieDetail).length →
        ∃ m r, ([stubMovie "1975-06-20", stubMovie "1993"] :
            List MovieDetail)[i]? = some m ∧
          (linesOf out)[i]? =
            some (toString i ++ ". " ++ m.title ++ r)) :=
  ⟨List.cons_ne_nil _ _,
   c5_numbered_lines ⟨1234⟩ [stubMovie "1975-06-20", stubMovie "1993"]
     (List.cons_ne_nil _ _)
     (by
       intro m hm
       simp only [List.mem_cons, List.mem_singleton] at hm
       rcases hm with rfl | rfl | hm
       · exact ⟨by decide, by decide⟩
       · exact ⟨by decide, by decide⟩
       · exact absurd hm (List.not_mem_nil m))⟩
